import Mathlib

/-!
Shallow embedding of `src/gdaltools/ogr2ogrcmd.py` (class `Ogr2ogr`), the
command builder for the external `ogr2ogr` tool, together with models of the
collaborators the builder uses (`basetypes.ConnectionString`,
`basetypes.FileConnectionString`, `basetypes.Wrapper`, `os.path.basename`,
`os.path.exists`).

Python strings are Lean `String`s; Python `None`-able strings are
`Option String`; Python dictionaries of options are association lists
`List (String × String)` with dictionary semantics (unique keys are not
assumed; lookup takes the first match, and insertion replaces in place, which
coincides with dict behaviour on any state reachable by the class's methods).
Python truthiness of an optional string (`if s:`) is `pyTruthy`.
-/

/-- Python truthiness of an optional string: `None` and the empty string are
falsy, every other string is truthy. -/
def pyTruthy : Option String → Bool
  | none => false
  | some s => !(s == "")

/-- Lower-casing of a string, as Python `str.lower` acts on ASCII text
(destinations and connection strings in this program are ASCII). -/
def pyLower (s : String) : String :=
  ⟨s.data.map Char.toLower⟩

/-- Python `str.endswith` on the embedded strings. -/
def pyEndsWith (s suffix : String) : Bool :=
  List.isSuffixOf suffix.data s.data

/-- Python `str.startswith` on the embedded strings. -/
def pyStartsWith (s pre : String) : Bool :=
  List.isPrefixOf pre.data s.data

/-- Helper for `osPathBasename`: the characters after the last slash. -/
def basenameAux (acc : List Char) : List Char → List Char
  | [] => acc.reverse
  | c :: cs => if c = '/' then basenameAux [] cs else basenameAux (c :: acc) cs

/-- Model of `os.path.basename` (POSIX): the part of the path after the last
`/` separator, extension included. -/
def osPathBasename (p : String) : String :=
  ⟨basenameAux [] p.data⟩

/-- First-match lookup in an association list, the semantics of reading a key
of a Python dict represented as a `List (String × String)`. -/
def lookupOpt (k : String) : List (String × String) → Option String
  | [] => none
  | kv :: rest => if kv.1 = k then some kv.2 else lookupOpt k rest

/-- Python `d[k] = v` on a dict represented as an association list: replace
the value in place when the key is present, append the pair otherwise. -/
def dictSet (d : List (String × String)) (k v : String) : List (String × String) :=
  if (lookupOpt k d).isSome then
    d.map (fun kv => if kv.1 = k then (k, v) else kv)
  else
    d ++ [(k, v)]

/-- Python `base.copy()` followed by `.update(user)`: keys of `base` keep
their positions with values overridden by `user` where present, and keys only
in `user` are appended in their order. -/
def dictUpdate (base user : List (String × String)) : List (String × String) :=
  base.map (fun kv => (kv.1, (lookupOpt kv.1 user).getD kv.2))
    ++ user.filter (fun kv => (lookupOpt kv.1 base).isNone)

/-- Modelled from the spec: the connection-string collaborators of
`basetypes` (not under `src/`). A data-source reference is either a file
reference backed by a filesystem path, or a connection-string reference
carrying a render-for-execution form and a render-for-display form (the
spec's capability set: render-for-execution, render-for-display, type
discriminator). -/
inductive ConnString where
  | file (path : String)
  | conn (encodeForm displayForm : String)
deriving DecidableEq, Repr

/-- Modelled from the spec: `encode()`, the render-for-execution (raw) form;
for a file reference it is the path itself. -/
def ConnString.encode : ConnString → String
  | .file p => p
  | .conn e _ => e

/-- Modelled from the spec: `unicode()`, the render-for-display
(human-readable) form; for a file reference it is the path itself. -/
def ConnString.display : ConnString → String
  | .file p => p
  | .conn _ d => d

/-- Modelled from the spec: the type discriminator
`isinstance(_, FileConnectionString)`. -/
def ConnString.isFile : ConnString → Bool
  | .file _ => true
  | .conn _ _ => false

/-- Argument accepted by `set_input` / `set_output`: either an already-built
`ConnectionString` object or a raw path string. -/
inductive DsArg where
  | cs (c : ConnString)
  | raw (path : String)
deriving DecidableEq, Repr

/-- The `isinstance(ds, ConnectionString)` branch at the top of `set_input`
and `set_output`: a raw path is wrapped into a `FileConnectionString`. -/
def DsArg.resolve : DsArg → ConnString
  | .cs c => c
  | .raw p => .file p

/-- State of an `Ogr2ogr` builder instance: one field per Python instance
attribute. Fields not yet set by `set_input` / `set_output` hold the listed
defaults; the claims only concern fully configured builders. -/
structure Ogr2ogr where
  command : String
  in_ds : ConnString := .file ""
  in_table : Option String := none
  in_srs : Option String := none
  in_encoding : Option String := none
  out_ds : ConnString := .file ""
  out_file_type : String := ""
  out_table : Option String := none
  out_srs : Option String := none
  layer_mode : String
  data_source_mode : String
  dataset_creation_options_user : List (String × String)
  layer_creation_options_user : List (String × String)
  dataset_creation_options_internal : List (String × String)
  layer_creation_options_internal : List (String × String)
  config_options_user : List (String × String)
  config_options_internal : List (String × String)
  geom_type_field : Option String
deriving DecidableEq, Repr

/-- Class constant `MODE_LAYER_CREATE`. -/
def Ogr2ogr.MODE_LAYER_CREATE : String := "CR"

/-- Class constant `MODE_LAYER_APPEND`. -/
def Ogr2ogr.MODE_LAYER_APPEND : String := "AP"

/-- Class constant `MODE_LAYER_OVERWRITE`. -/
def Ogr2ogr.MODE_LAYER_OVERWRITE : String := "OW"

/-- Class constant `MODE_DS_CREATE`. -/
def Ogr2ogr.MODE_DS_CREATE : String := "CR"

/-- Class constant `MODE_DS_UPDATE`. -/
def Ogr2ogr.MODE_DS_UPDATE : String := "UP"

/-- Class constant `MODE_DS_CREATE_OR_UPDATE`. -/
def Ogr2ogr.MODE_DS_CREATE_OR_UPDATE : String := "CU"

/-- Class constant `OGR2OGR_PATH`. -/
def Ogr2ogr.OGR2OGR_PATH : String := "/usr/bin/ogr2ogr"

/-- Method `set_output_mode(layer_mode, data_source_mode)`. -/
def Ogr2ogr.set_output_mode (o : Ogr2ogr)
    (layer_mode : String := Ogr2ogr.MODE_LAYER_CREATE)
    (data_source_mode : String := Ogr2ogr.MODE_DS_CREATE) : Ogr2ogr :=
  { o with layer_mode := layer_mode, data_source_mode := data_source_mode }

/-- Constructor `__init__(version, command_path)`: the `Wrapper` base class
(not under `src/`) is modelled from the spec as storing the executable
path — the given `command_path` or the class default. The constructor then
calls `set_output_mode()` and initialises the six option dicts empty and
`geom_type` to `None`. -/
def Ogr2ogr.init (command_path : Option String := none) : Ogr2ogr :=
  Ogr2ogr.set_output_mode
    { command := command_path.getD Ogr2ogr.OGR2OGR_PATH
      layer_mode := ""
      data_source_mode := ""
      dataset_creation_options_user := []
      layer_creation_options_user := []
      dataset_creation_options_internal := []
      layer_creation_options_internal := []
      config_options_user := []
      config_options_internal := []
      geom_type_field := none }

/-- Method `set_input(input_ds, table_name, srs, encoding)`. -/
def Ogr2ogr.set_input (o : Ogr2ogr) (input_ds : DsArg)
    (table_name : Option String := none) (srs : Option String := none)
    (encoding : Option String := none) : Ogr2ogr :=
  let o := { o with
    in_ds := input_ds.resolve
    in_table := table_name
    in_srs := srs
    in_encoding := encoding }
  if pyTruthy encoding then
    { o with config_options_internal :=
        dictSet o.config_options_internal "SHAPE_ENCODING" (encoding.getD "") }
  else
    o

/-- The suffix/prefix inference chain of `set_output` applied to the
lower-cased encoded destination. -/
def inferFileType (dslower : String) : String :=
  if pyEndsWith dslower ".shp" then "ESRI Shapefile"
  else if pyStartsWith dslower "pg:" then "PostgreSQL"
  else if pyEndsWith dslower ".sqlite" then "SQLite"
  else if pyEndsWith dslower ".json" || pyEndsWith dslower ".geojson" then "GeoJSON"
  else if pyEndsWith dslower ".gml" then "GML"
  else if pyEndsWith dslower ".csv" then "CSV"
  else if pyEndsWith dslower ".gpx" then "GPX"
  else if pyEndsWith dslower ".kml" then "KML"
  else "ESRI Shapefile"

/-- Method `set_output(output_ds, file_type, table_name, srs)`. Note that the
spatialite injection is guarded by `file_type == "SQLite"`, a comparison on
the explicit parameter, not on the resolved `out_file_type`. -/
def Ogr2ogr.set_output (o : Ogr2ogr) (output_ds : DsArg)
    (file_type : Option String := none) (table_name : Option String := none)
    (srs : Option String := none) : Ogr2ogr :=
  let out_ds := output_ds.resolve
  let oft : String :=
    if pyTruthy file_type then file_type.getD ""
    else inferFileType (pyLower out_ds.encode)
  let o := { o with out_ds := out_ds, out_file_type := oft }
  let o :=
    if file_type = some "SQLite" then
      { o with dataset_creation_options_internal :=
          dictSet o.dataset_creation_options_internal "SPATIALITE" "YES" }
    else
      o
  { o with out_table := table_name, out_srs := srs }

/-- Property getter `geom_type`. -/
def Ogr2ogr.geom_type (o : Ogr2ogr) : Option String :=
  if o.out_file_type = "PostgreSQL" && !pyTruthy o.geom_type_field then
    some "PROMOTE_TO_MULTI"
  else
    o.geom_type_field

/-- Property setter `geom_type`. -/
def Ogr2ogr.set_geom_type (o : Ogr2ogr) (g : Option String) : Ogr2ogr :=
  { o with geom_type_field := g }

/-- Property getter `dataset_creation_options`: merged view, internal copy
updated with the user dict. -/
def Ogr2ogr.dataset_creation_options (o : Ogr2ogr) : List (String × String) :=
  dictUpdate o.dataset_creation_options_internal o.dataset_creation_options_user

/-- Property setter `dataset_creation_options`: replaces the user dict. -/
def Ogr2ogr.set_dataset_creation_options (o : Ogr2ogr)
    (d : List (String × String)) : Ogr2ogr :=
  { o with dataset_creation_options_user := d }

/-- Property getter `layer_creation_options`: merged view, internal copy
updated with the user dict. -/
def Ogr2ogr.layer_creation_options (o : Ogr2ogr) : List (String × String) :=
  dictUpdate o.layer_creation_options_internal o.layer_creation_options_user

/-- Property setter `layer_creation_options`: replaces the user dict. -/
def Ogr2ogr.set_layer_creation_options (o : Ogr2ogr)
    (d : List (String × String)) : Ogr2ogr :=
  { o with layer_creation_options_user := d }

/-- Property getter `config_options`: merged view, internal copy updated with
the user dict. -/
def Ogr2ogr.config_options (o : Ogr2ogr) : List (String × String) :=
  dictUpdate o.config_options_internal o.config_options_user

/-- Property setter `config_options`: replaces the user dict. -/
def Ogr2ogr.set_config_options (o : Ogr2ogr)
    (d : List (String × String)) : Ogr2ogr :=
  { o with config_options_user := d }

/-- Method `execute()`, translated statement by statement. `fileExists`
models `os.path.exists` (an external observation, passed in as a function of
the displayed path). The method mutates no instance attribute, so the
embedding returns the unchanged state together with the pair
`(args, safe_args)`: `args` is the list handed to `self._do_execute`,
`safe_args` the list handed to `logging.debug`. -/
def Ogr2ogr.execute (fileExists : String → Bool) (o : Ogr2ogr) :
    Ogr2ogr × List String × List String :=
  let args := [o.command]
  let args :=
    if o.data_source_mode = Ogr2ogr.MODE_DS_UPDATE then
      args ++ ["-update"]
    else if o.data_source_mode = Ogr2ogr.MODE_DS_CREATE_OR_UPDATE then
      if o.out_ds.isFile && fileExists o.out_ds.display then
        args ++ ["-update"]
      else
        args ++ ["-update"]
    else args
  let args :=
    if o.layer_mode = Ogr2ogr.MODE_LAYER_APPEND then args ++ ["-append"]
    else if o.layer_mode = Ogr2ogr.MODE_LAYER_OVERWRITE then args ++ ["-overwrite"]
    else args
  let args :=
    if pyTruthy o.out_srs then args ++ ["-t_srs", o.out_srs.getD ""] else args
  let args :=
    if pyTruthy o.in_srs then
      args ++ ["-a_srs", o.in_srs.getD ""] ++ ["-s_srs", o.in_srs.getD ""]
    else args
  let args := args ++ ["-f", o.out_file_type]
  let args := args ++ (o.dataset_creation_options.flatMap
    fun kv => ["-dsco", kv.1 ++ "=" ++ kv.2])
  let args := args ++ (o.layer_creation_options.flatMap
    fun kv => ["-lco", kv.1 ++ "=" ++ kv.2])
  let args := args ++ (o.config_options.flatMap
    fun kv => ["--config", kv.1, kv.2])
  let args :=
    if pyTruthy o.out_table then args ++ ["-nln", o.out_table.getD ""]
    else if pyTruthy o.in_table then args ++ ["-nln", o.in_table.getD ""]
    else if o.in_ds.isFile then
      args ++ ["-nln", osPathBasename o.in_ds.encode]
    else args
  let args :=
    if pyTruthy o.geom_type then args ++ ["-nlt", (o.geom_type).getD ""]
    else args
  let safe_args := args
  if pyTruthy o.in_table then
    (o, args ++ [o.out_ds.encode, o.in_ds.encode, o.in_table.getD ""],
        safe_args ++ [o.out_ds.display, o.in_ds.display, o.in_table.getD ""])
  else
    (o, args ++ [o.out_ds.encode, o.in_ds.encode],
        safe_args ++ [o.out_ds.display, o.in_ds.display])

/-- Modelled from the spec: the Process Runner collaborator consumes a single
operation `execute(argument_list) → result`; `_do_execute` hands it the
execution argument list. `execRun` is `execute()` followed by that
delegation, with the runner abstracted as a function. -/
def Ogr2ogr.execRun {ρ : Type} (runner : List String → ρ)
    (fileExists : String → Bool) (o : Ogr2ogr) : ρ :=
  runner (Ogr2ogr.execute fileExists o).2.1

/-- Option choice: the first operand when it is `some`, the second otherwise.
This is the lookup semantics of a two-layer option dict. -/
def optOr (a b : Option String) : Option String :=
  match a with
  | some v => some v
  | none => b

/-!
Specification-side descriptions of the argument segments, written from the
spec's §4.1 wording. `Ogr2ogr.execute` is proved equal to their ordered
concatenation.
-/

/-- Spec §4.1 step 2: data-source mode flag — UPDATE or CREATE_OR_UPDATE both
emit an update flag, CREATE emits nothing. -/
def specDsModeFlag (o : Ogr2ogr) : List String :=
  if o.data_source_mode = Ogr2ogr.MODE_DS_UPDATE
      ∨ o.data_source_mode = Ogr2ogr.MODE_DS_CREATE_OR_UPDATE then
    ["-update"]
  else []

/-- Spec §4.1 step 3: layer mode flag — APPEND emits an append flag,
OVERWRITE an overwrite flag, CREATE nothing. -/
def specLayerModeFlag (o : Ogr2ogr) : List String :=
  if o.layer_mode = Ogr2ogr.MODE_LAYER_APPEND then ["-append"]
  else if o.layer_mode = Ogr2ogr.MODE_LAYER_OVERWRITE then ["-overwrite"]
  else []

/-- Spec §4.1 step 4: target-SRS flag and value, when the output SRS is
set. -/
def specTargetSrs (o : Ogr2ogr) : List String :=
  if pyTruthy o.out_srs then ["-t_srs", o.out_srs.getD ""] else []

/-- Spec §4.1 step 5: when the input SRS is set, both the assign-source-SRS
flag and the source-SRS-for-transform flag, each paired with the input SRS
value. -/
def specInputSrs (o : Ogr2ogr) : List String :=
  if pyTruthy o.in_srs then
    ["-a_srs", o.in_srs.getD "", "-s_srs", o.in_srs.getD ""]
  else []

/-- Spec §4.1 step 6: output format flag and resolved file type, always
emitted. -/
def specFmt (o : Ogr2ogr) : List String :=
  ["-f", o.out_file_type]

/-- Spec §4.1 step 7: one dataset-creation-option flag with KEY=VALUE per
merged dataset-creation option. -/
def specDsco (o : Ogr2ogr) : List String :=
  o.dataset_creation_options.flatMap fun kv => ["-dsco", kv.1 ++ "=" ++ kv.2]

/-- Spec §4.1 step 8: one layer-creation-option flag with KEY=VALUE per
merged layer-creation option. -/
def specLco (o : Ogr2ogr) : List String :=
  o.layer_creation_options.flatMap fun kv => ["-lco", kv.1 ++ "=" ++ kv.2]

/-- Spec §4.1 step 9: one config flag followed by KEY and VALUE as separate
tokens per merged config option. -/
def specConfig (o : Ogr2ogr) : List String :=
  o.config_options.flatMap fun kv => ["--config", kv.1, kv.2]

/-- Spec §4.1 step 10: the output-layer-name value, chosen by first-match
precedence — explicit output table name, else explicit input table name,
else (only for a file-reference input) the base filename of the input path
with directory components stripped; `none` when nothing resolves. -/
def specNlnValue (o : Ogr2ogr) : Option String :=
  if pyTruthy o.out_table then o.out_table
  else if pyTruthy o.in_table then o.in_table
  else if o.in_ds.isFile then some (osPathBasename o.in_ds.encode)
  else none

/-- Spec §4.1 step 10, as tokens: the layer-name flag with the resolved name,
or nothing when no name resolves. -/
def specNln (o : Ogr2ogr) : List String :=
  match specNlnValue o with
  | some v => ["-nln", v]
  | none => []

/-- Spec §4.1 step 11: layer-geometry-type flag and value when the
geometry-type accessor resolves to a non-empty value. -/
def specNlt (o : Ogr2ogr) : List String :=
  if pyTruthy o.geom_type then ["-nlt", (o.geom_type).getD ""] else []

/-- Spec §4.1 step 12 (execution form): output destination, input
destination, and — only if an input table name was given — the input table
name as a third positional. -/
def specPositional (o : Ogr2ogr) : List String :=
  [o.out_ds.encode, o.in_ds.encode]
    ++ (if pyTruthy o.in_table then [o.in_table.getD ""] else [])

/-- Spec §4.1 step 12 (logging form): the same positionals with the
destinations in their human-readable display form. -/
def specPositionalSafe (o : Ogr2ogr) : List String :=
  [o.out_ds.display, o.in_ds.display]
    ++ (if pyTruthy o.in_table then [o.in_table.getD ""] else [])

/-- Every token of the assembled list except the data-source mode flag, in
order. Used to isolate the update flag in counting arguments. -/
def nonDsModeTokens (o : Ogr2ogr) : List String :=
  [o.command] ++ specLayerModeFlag o ++ specTargetSrs o ++ specInputSrs o
    ++ specFmt o ++ specDsco o ++ specLco o ++ specConfig o ++ specNln o
    ++ specNlt o ++ specPositional o

/-- Appending under a two-way conditional commutes with the append. -/
lemma append_ite (c : Prop) [Decidable c] (X a : List String) :
    (if c then X ++ a else X) = X ++ (if c then a else []) := by
  by_cases h : c <;> simp [h]

/-- Appending under a three-way conditional commutes with the append. -/
lemma append_ite2 (c₁ c₂ : Prop) [Decidable c₁] [Decidable c₂]
    (X a b : List String) :
    (if c₁ then X ++ a else if c₂ then X ++ b else X)
      = X ++ (if c₁ then a else if c₂ then b else []) := by
  by_cases h₁ : c₁ <;> by_cases h₂ : c₂ <;> simp [h₁, h₂]

/-- The data-source mode block of `execute` assembles the spec's data-source
mode flag: the existence conditional has identical branches, so UPDATE and
CREATE_OR_UPDATE both append the update flag and CREATE appends nothing. -/
lemma append_dsmode (fe : String → Bool) (o : Ogr2ogr) (X : List String) :
    (if o.data_source_mode = Ogr2ogr.MODE_DS_UPDATE then X ++ ["-update"]
     else if o.data_source_mode = Ogr2ogr.MODE_DS_CREATE_OR_UPDATE then
       if o.out_ds.isFile && fe o.out_ds.display then X ++ ["-update"]
       else X ++ ["-update"]
     else X) = X ++ specDsModeFlag o := by
  unfold specDsModeFlag
  by_cases h₁ : o.data_source_mode = Ogr2ogr.MODE_DS_UPDATE <;>
    by_cases h₂ : o.data_source_mode = Ogr2ogr.MODE_DS_CREATE_OR_UPDATE <;>
      simp [h₁, h₂]

/-- The layer-name block of `execute` assembles the spec's layer-name
tokens. -/
lemma append_nln (o : Ogr2ogr) (X : List String) :
    (if pyTruthy o.out_table then X ++ ["-nln", o.out_table.getD ""]
     else if pyTruthy o.in_table then X ++ ["-nln", o.in_table.getD ""]
     else if o.in_ds.isFile then X ++ ["-nln", osPathBasename o.in_ds.encode]
     else X) = X ++ specNln o := by
  unfold specNln specNlnValue
  by_cases h₁ : pyTruthy o.out_table <;>
    by_cases h₂ : pyTruthy o.in_table <;>
      by_cases h₃ : o.in_ds.isFile <;>
        simp [h₁, h₂, h₃] <;>
        cases ho : o.out_table <;> cases hi : o.in_table <;>
          simp_all [pyTruthy]

/-- Decomposition of the execution argument list into the spec's ordered
segments. -/
lemma execute_args_decomp (fe : String → Bool) (o : Ogr2ogr) :
    (Ogr2ogr.execute fe o).2.1
      = [o.command] ++ specDsModeFlag o ++ specLayerModeFlag o
        ++ specTargetSrs o ++ specInputSrs o ++ specFmt o ++ specDsco o
        ++ specLco o ++ specConfig o ++ specNln o ++ specNlt o
        ++ specPositional o := by
  unfold Ogr2ogr.execute
  dsimp only
  rw [append_dsmode fe o]
  rw [append_ite2 (o.layer_mode = Ogr2ogr.MODE_LAYER_APPEND)
    (o.layer_mode = Ogr2ogr.MODE_LAYER_OVERWRITE)]
  rw [append_ite (pyTruthy o.out_srs = true)]
  rw [show ∀ X : List String,
        (if pyTruthy o.in_srs then
          X ++ ["-a_srs", o.in_srs.getD ""] ++ ["-s_srs", o.in_srs.getD ""]
         else X) = X ++ specInputSrs o from ?_]
  · rw [append_nln o]
    rw [append_ite (pyTruthy o.geom_type = true)]
    by_cases h : pyTruthy o.in_table = true <;>
      simp [h, specLayerModeFlag, specTargetSrs, specFmt, specDsco, specLco,
        specConfig, specNlt, specPositional, List.append_assoc]
  · intro X
    unfold specInputSrs
    by_cases h : pyTruthy o.in_srs = true <;> simp [h]

/-- Decomposition of the logging-safe argument list: the same segments with
the display-form positionals. -/
lemma execute_safe_decomp (fe : String → Bool) (o : Ogr2ogr) :
    (Ogr2ogr.execute fe o).2.2
      = [o.command] ++ specDsModeFlag o ++ specLayerModeFlag o
        ++ specTargetSrs o ++ specInputSrs o ++ specFmt o ++ specDsco o
        ++ specLco o ++ specConfig o ++ specNln o ++ specNlt o
        ++ specPositionalSafe o := by
  unfold Ogr2ogr.execute
  dsimp only
  rw [append_dsmode fe o]
  rw [append_ite2 (o.layer_mode = Ogr2ogr.MODE_LAYER_APPEND)
    (o.layer_mode = Ogr2ogr.MODE_LAYER_OVERWRITE)]
  rw [append_ite (pyTruthy o.out_srs = true)]
  rw [show ∀ X : List String,
        (if pyTruthy o.in_srs then
          X ++ ["-a_srs", o.in_srs.getD ""] ++ ["-s_srs", o.in_srs.getD ""]
         else X) = X ++ specInputSrs o from ?_]
  · rw [append_nln o]
    rw [append_ite (pyTruthy o.geom_type = true)]
    by_cases h : pyTruthy o.in_table = true <;>
      simp [h, specLayerModeFlag, specTargetSrs, specFmt, specDsco, specLco,
        specConfig, specNlt, specPositionalSafe, List.append_assoc]
  · intro X
    unfold specInputSrs
    by_cases h : pyTruthy o.in_srs = true <;> simp [h]

/-- Lookup distributes over list append, preferring the left list. -/
lemma lookupOpt_append (k : String) (a b : List (String × String)) :
    lookupOpt k (a ++ b) = optOr (lookupOpt k a) (lookupOpt k b) := by
  induction a with
  | nil => simp [lookupOpt, optOr]
  | cons kv rest ih =>
    by_cases h : kv.1 = k <;> simp [lookupOpt, h, ih, optOr]

/-- Lookup after a key-preserving value map applies the transformation to the
looked-up value. -/
lemma lookupOpt_mapValues (k : String) (g : String → String → String)
    (l : List (String × String)) :
    lookupOpt k (l.map fun kv => (kv.1, g kv.1 kv.2))
      = (lookupOpt k l).map (g k) := by
  induction l with
  | nil => simp [lookupOpt]
  | cons kv rest ih =>
    by_cases h : kv.1 = k
    · subst h
      simp [lookupOpt]
    · simp [lookupOpt, h, ih]

/-- Lookup after filtering on a key predicate. -/
lemma lookupOpt_filterKey (k : String) (p : String → Bool)
    (l : List (String × String)) :
    lookupOpt k (l.filter fun kv => p kv.1)
      = if p k then lookupOpt k l else none := by
  induction l with
  | nil => simp [lookupOpt]
  | cons kv rest ih =>
    by_cases hk : kv.1 = k
    · subst hk
      by_cases hp : p kv.1 <;> simp [lookupOpt, hp, List.filter, ih]
    · by_cases hp : p kv.1 <;> simp [lookupOpt, hk, hp, List.filter, ih]

/-- Lookup in the merged two-layer dict: the user layer wins, the base layer
fills in keys the user layer omits. -/
lemma lookupOpt_dictUpdate (k : String) (base user : List (String × String)) :
    lookupOpt k (dictUpdate base user)
      = optOr (lookupOpt k user) (lookupOpt k base) := by
  unfold dictUpdate
  rw [lookupOpt_append,
    lookupOpt_mapValues k (fun key v => (lookupOpt key user).getD v),
    lookupOpt_filterKey k (fun key => (lookupOpt key base).isNone)]
  cases hb : lookupOpt k base <;> cases hu : lookupOpt k user <;>
    simp [hb, hu, optOr]

/-- Setting a key in a dict makes it look up to the new value. -/
lemma lookupOpt_dictSet_self (k v : String) (d : List (String × String)) :
    lookupOpt k (dictSet d k v) = some v := by
  unfold dictSet
  by_cases h : (lookupOpt k d).isSome = true
  · rw [if_pos h]
    induction d with
    | nil => simp [lookupOpt] at h
    | cons kv rest ih =>
      by_cases hk : kv.1 = k
      · simp [lookupOpt, hk]
      · simp only [lookupOpt, hk, if_false] at h
        simp [lookupOpt, hk, ih h]
  · rw [if_neg h, lookupOpt_append]
    cases hd : lookupOpt k d
    · simp [optOr, lookupOpt]
    · simp [hd] at h

/-- Specification-side inference of the output file type from the claim's
fixed table: case-insensitive first-match over the listed suffix/prefix
entries, with the shapefile format as the fallback for destinations matching
no entry. -/
def specInferredFileType (destText : String) : String :=
  let d := pyLower destText
  if pyEndsWith d ".shp" then "ESRI Shapefile"
  else if pyStartsWith d "pg:" then "PostgreSQL"
  else if pyEndsWith d ".sqlite" then "SQLite"
  else if pyEndsWith d ".json" || pyEndsWith d ".geojson" then "GeoJSON"
  else if pyEndsWith d ".gml" then "GML"
  else if pyEndsWith d ".csv" then "CSV"
  else if pyEndsWith d ".gpx" then "GPX"
  else if pyEndsWith d ".kml" then "KML"
  else "ESRI Shapefile"

/-- Specification-side resolution of the output file type: an explicit
`file_type` parameter wins, otherwise the type is inferred from the
destination's textual form. An empty-string parameter counts as absent,
matching the Python API where omission is signalled by falsiness. -/
def specResolvedFileType (file_type : Option String) (destText : String) : String :=
  match file_type with
  | some ft => if ft = "" then specInferredFileType destText else ft
  | none => specInferredFileType destText

/-- C1: for every configured builder, `execute` assembles the argument list
in exactly the spec's order — executable path, data-source mode flag, layer
mode flag, target SRS, input SRS flags, output format, dataset-creation
options, layer-creation options, config options, layer-name flag,
geometry-type flag, and the positional output destination, input
destination, and optional input table name. -/
theorem Ogr2ogr.execute_arg_order (fe : String → Bool) (o : Ogr2ogr) :
    (Ogr2ogr.execute fe o).2.1
      = [o.command] ++ specDsModeFlag o ++ specLayerModeFlag o
        ++ specTargetSrs o ++ specInputSrs o ++ specFmt o ++ specDsco o
        ++ specLco o ++ specConfig o ++ specNln o ++ specNlt o
        ++ specPositional o :=
  execute_args_decomp fe o

/-- C2: `set_output` resolves the output file type by the claimed
precedence — explicit parameter first, else case-insensitive inference from
the destination's textual form over the fixed table, with the shapefile
format as default. -/
theorem Ogr2ogr.set_output_file_type_resolution (o : Ogr2ogr) (ds : DsArg)
    (ft tn srs : Option String) :
    (o.set_output ds ft tn srs).out_file_type
      = specResolvedFileType ft (DsArg.resolve ds).encode := by
  cases ft with
  | none =>
    by_cases hsq : (none : Option String) = some "SQLite" <;>
      simp [Ogr2ogr.set_output, specResolvedFileType, specInferredFileType,
        inferFileType, pyTruthy, hsq]
  | some s =>
    by_cases hs : s = "" <;>
      by_cases hsq : s = "SQLite" <;>
        simp [Ogr2ogr.set_output, specResolvedFileType, specInferredFileType,
          inferFileType, pyTruthy, hs, hsq]

/-- C3: each of the three option layers reads as the merge in which the user
mapping overrides the internal mapping and the internal mapping fills in
omitted keys, and each write accessor replaces only the user mapping,
leaving the internal mapping unchanged. -/
theorem Ogr2ogr.option_layers_merge_semantics (o : Ogr2ogr) (k : String)
    (d : List (String × String)) :
    (lookupOpt k o.dataset_creation_options
        = optOr (lookupOpt k o.dataset_creation_options_user)
            (lookupOpt k o.dataset_creation_options_internal))
    ∧ (lookupOpt k o.layer_creation_options
        = optOr (lookupOpt k o.layer_creation_options_user)
            (lookupOpt k o.layer_creation_options_internal))
    ∧ (lookupOpt k o.config_options
        = optOr (lookupOpt k o.config_options_user)
            (lookupOpt k o.config_options_internal))
    ∧ ((o.set_dataset_creation_options d).dataset_creation_options_user = d
        ∧ (o.set_dataset_creation_options d).dataset_creation_options_internal
            = o.dataset_creation_options_internal)
    ∧ ((o.set_layer_creation_options d).layer_creation_options_user = d
        ∧ (o.set_layer_creation_options d).layer_creation_options_internal
            = o.layer_creation_options_internal)
    ∧ ((o.set_config_options d).config_options_user = d
        ∧ (o.set_config_options d).config_options_internal
            = o.config_options_internal) := by
  refine ⟨?_, ?_, ?_, ⟨rfl, rfl⟩, ⟨rfl, rfl⟩, ⟨rfl, rfl⟩⟩ <;>
    simp [Ogr2ogr.dataset_creation_options, Ogr2ogr.layer_creation_options,
      Ogr2ogr.config_options, lookupOpt_dictUpdate]

/-- C4 counterexample: a destination whose suffix infers SQLite without an
explicit `file_type` parameter resolves the output format to SQLite, yet the
merged dataset-creation options (with an untouched user layer) contain no
spatialite entry — the injection is keyed on the explicit parameter only. -/
theorem Ogr2ogr.sqlite_inferred_no_spatialite :
    (Ogr2ogr.init.set_output (.raw "out.sqlite") none none none).out_file_type
        = "SQLite"
    ∧ lookupOpt "SPATIALITE"
        (Ogr2ogr.dataset_creation_options
          (Ogr2ogr.init.set_output (.raw "out.sqlite") none none none))
        = none := by
  constructor <;> rfl

/-- C4 (amended): the spatialite-enabled entry is injected into the internal
dataset-creation layer exactly when the explicit `file_type` parameter equals
"SQLite"; then the merged dataset-creation options resolve that key to the
user layer's value if the user layer sets it, and to "YES" otherwise. A
SQLite format that is merely inferred from the destination suffix injects
nothing. -/
theorem Ogr2ogr.spatialite_injection_explicit_only (o : Ogr2ogr) (ds : DsArg)
    (tn srs : Option String) :
    (lookupOpt "SPATIALITE"
        (o.set_output ds (some "SQLite") tn srs).dataset_creation_options_internal
        = some "YES")
    ∧ (lookupOpt "SPATIALITE"
        (Ogr2ogr.dataset_creation_options (o.set_output ds (some "SQLite") tn srs))
        = optOr (lookupOpt "SPATIALITE" o.dataset_creation_options_user)
            (some "YES"))
    ∧ (∀ ft : Option String, ft ≠ some "SQLite" →
        (o.set_output ds ft tn srs).dataset_creation_options_internal
          = o.dataset_creation_options_internal) := by
  refine ⟨?_, ?_, ?_⟩
  · simp [Ogr2ogr.set_output, lookupOpt_dictSet_self]
  · simp [Ogr2ogr.set_output, Ogr2ogr.dataset_creation_options,
      lookupOpt_dictUpdate, lookupOpt_dictSet_self]
  · intro ft hft
    simp [Ogr2ogr.set_output, hft]

/-- Witness for the amended C4 at concrete inputs: explicit "SQLite" injects
the entry, and an explicit "GeoJSON" parameter leaves the internal layer
untouched. -/
theorem Ogr2ogr.spatialite_injection_explicit_only_witness :
    (lookupOpt "SPATIALITE"
        (Ogr2ogr.init.set_output (.raw "a.db") (some "SQLite") none
          none).dataset_creation_options_internal = some "YES")
    ∧ ((some "GeoJSON" : Option String) ≠ some "SQLite")
    ∧ ((Ogr2ogr.init.set_output (.raw "a.db") (some "GeoJSON") none
          none).dataset_creation_options_internal
        = Ogr2ogr.init.dataset_creation_options_internal) :=
  ⟨(Ogr2ogr.spatialite_injection_explicit_only Ogr2ogr.init (.raw "a.db")
      none none).1,
   by decide,
   (Ogr2ogr.spatialite_injection_explicit_only Ogr2ogr.init (.raw "a.db")
      none none).2.2 (some "GeoJSON") (by decide)⟩

/-- C5 counterexample: for input file path "/data/roads.shp" with no table
names, the assembled list pairs the layer-name flag with "roads.shp" — the
base filename keeps its extension — and the token "roads" claimed by the
spec appears nowhere in the list. -/
theorem Ogr2ogr.nln_value_keeps_extension :
    (Ogr2ogr.execute (fun _ => false)
        ((Ogr2ogr.init.set_input (.raw "/data/roads.shp") none none
            none).set_output (.raw "out.shp") none none none)).2.1
      = ["/usr/bin/ogr2ogr", "-f", "ESRI Shapefile", "-nln", "roads.shp",
         "out.shp", "/data/roads.shp"]
    ∧ "roads" ∉
        (Ogr2ogr.execute (fun _ => false)
          ((Ogr2ogr.init.set_input (.raw "/data/roads.shp") none none
              none).set_output (.raw "out.shp") none none none)).2.1 := by
  constructor
  · rfl
  · decide

/-- C5 (amended): the layer-name value is chosen by first-match
precedence — explicit output table name, else explicit input table name,
else (for a file-reference input) the base filename of the input path with
directory components stripped, extension included. With input table
"parcels" and no output table the layer-name value is "parcels"; with input
file path "/data/roads.shp" and no table names it is "roads.shp". -/
theorem Ogr2ogr.nln_precedence (fe : String → Bool) :
    (∀ o : Ogr2ogr, ∃ pre post,
        (Ogr2ogr.execute fe o).2.1
          = pre ++ (match specNlnValue o with
              | some v => ["-nln", v]
              | none => []) ++ post)
    ∧ (Ogr2ogr.execute fe
        ((Ogr2ogr.init.set_input (.raw "in.shp") (some "parcels") none
            none).set_output (.raw "out.shp") none none none)).2.1
        = ["/usr/bin/ogr2ogr", "-f", "ESRI Shapefile", "-nln", "parcels",
           "out.shp", "in.shp", "parcels"]
    ∧ (Ogr2ogr.execute fe
        ((Ogr2ogr.init.set_input (.raw "/data/roads.shp") none none
            none).set_output (.raw "out.shp") none none none)).2.1
        = ["/usr/bin/ogr2ogr", "-f", "ESRI Shapefile", "-nln", "roads.shp",
           "out.shp", "/data/roads.shp"] := by
  refine ⟨?_, ?_, ?_⟩
  · intro o
    refine ⟨[o.command] ++ specDsModeFlag o ++ specLayerModeFlag o
        ++ specTargetSrs o ++ specInputSrs o ++ specFmt o ++ specDsco o
        ++ specLco o ++ specConfig o,
      specNlt o ++ specPositional o, ?_⟩
    rw [execute_args_decomp fe o]
    simp only [specNln, List.append_assoc]
  · rfl
  · rfl

/-- The data-source mode flag evaluates to the update flag in the UPDATE and
CREATE_OR_UPDATE modes. -/
lemma specDsModeFlag_eq_update (o : Ogr2ogr)
    (h : o.data_source_mode = Ogr2ogr.MODE_DS_UPDATE
      ∨ o.data_source_mode = Ogr2ogr.MODE_DS_CREATE_OR_UPDATE) :
    specDsModeFlag o = ["-update"] := by
  unfold specDsModeFlag
  exact if_pos h

/-- The data-source mode flag evaluates to nothing in CREATE mode. -/
lemma specDsModeFlag_eq_nil (o : Ogr2ogr)
    (h : o.data_source_mode = Ogr2ogr.MODE_DS_CREATE) :
    specDsModeFlag o = [] := by
  unfold specDsModeFlag
  rw [if_neg]
  rintro (h' | h') <;> rw [h] at h' <;> exact absurd h' (by decide)

/-- C6: when no other configured token is the update flag itself, the
executed argument list contains the update flag exactly once in UPDATE mode,
exactly once in CREATE_OR_UPDATE mode — the file-existence observation is
universally quantified, so this holds whether or not the destination
exists — and not at all in CREATE mode. -/
theorem Ogr2ogr.update_flag_count (fe : String → Bool) (o : Ogr2ogr)
    (h : "-update" ∉ nonDsModeTokens o) :
    (o.data_source_mode = Ogr2ogr.MODE_DS_UPDATE →
      List.count "-update" (Ogr2ogr.execute fe o).2.1 = 1)
    ∧ (o.data_source_mode = Ogr2ogr.MODE_DS_CREATE_OR_UPDATE →
      List.count "-update" (Ogr2ogr.execute fe o).2.1 = 1)
    ∧ (o.data_source_mode = Ogr2ogr.MODE_DS_CREATE →
      List.count "-update" (Ogr2ogr.execute fe o).2.1 = 0) := by
  have hzero : List.count "-update" (nonDsModeTokens o) = 0 :=
    List.count_eq_zero.mpr h
  have hsplit : List.count "-update" (Ogr2ogr.execute fe o).2.1
      = List.count "-update" (specDsModeFlag o)
        + List.count "-update" (nonDsModeTokens o) := by
    rw [execute_args_decomp fe o]
    unfold nonDsModeTokens
    simp only [List.count_append]
    omega
  refine ⟨fun hm => ?_, fun hm => ?_, fun hm => ?_⟩
  · rw [hsplit, hzero, specDsModeFlag_eq_update o (Or.inl hm)]
    decide
  · rw [hsplit, hzero, specDsModeFlag_eq_update o (Or.inr hm)]
    decide
  · rw [hsplit, hzero, specDsModeFlag_eq_nil o hm]
    decide

/-- Witness for C6 at a concrete builder in UPDATE mode: the hypotheses hold
by evaluation and the executed list counts one update flag. -/
theorem Ogr2ogr.update_flag_count_witness :
    ("-update" ∉ nonDsModeTokens
        (((Ogr2ogr.init.set_input (.raw "in.shp") none none none).set_output
            (.raw "out.shp") none none none).set_output_mode "CR" "UP"))
    ∧ List.count "-update"
        (Ogr2ogr.execute (fun _ => false)
          (((Ogr2ogr.init.set_input (.raw "in.shp") none none none).set_output
              (.raw "out.shp") none none none).set_output_mode "CR" "UP")).2.1
        = 1 :=
  ⟨by decide,
   (Ogr2ogr.update_flag_count (fun _ => false)
      (((Ogr2ogr.init.set_input (.raw "in.shp") none none none).set_output
          (.raw "out.shp") none none none).set_output_mode "CR" "UP")
      (by decide)).1 (by decide)⟩

/-- C7: whenever the input SRS is set, the executed list contains the
assign-SRS flag and the source-SRS flag adjacent, each paired with the input
SRS value; whenever the output SRS is set, the target-SRS flag is paired
with the output SRS value. -/
theorem Ogr2ogr.srs_flags_pairing (fe : String → Bool) (o : Ogr2ogr) :
    (pyTruthy o.in_srs = true →
      ["-a_srs", o.in_srs.getD "", "-s_srs", o.in_srs.getD ""]
        <:+: (Ogr2ogr.execute fe o).2.1)
    ∧ (pyTruthy o.out_srs = true →
      ["-t_srs", o.out_srs.getD ""] <:+: (Ogr2ogr.execute fe o).2.1) := by
  constructor
  · intro h
    refine ⟨[o.command] ++ specDsModeFlag o ++ specLayerModeFlag o
        ++ specTargetSrs o,
      specFmt o ++ specDsco o ++ specLco o ++ specConfig o ++ specNln o
        ++ specNlt o ++ specPositional o, ?_⟩
    rw [execute_args_decomp fe o]
    simp [specInputSrs, h, List.append_assoc]
  · intro h
    refine ⟨[o.command] ++ specDsModeFlag o ++ specLayerModeFlag o,
      specInputSrs o ++ specFmt o ++ specDsco o ++ specLco o ++ specConfig o
        ++ specNln o ++ specNlt o ++ specPositional o, ?_⟩
    rw [execute_args_decomp fe o]
    simp [specTargetSrs, h, List.append_assoc]

/-- Witness for C7 at a concrete builder with both SRS values set: both SRS
flag pairs appear, carrying the input SRS value for the source flags and the
output SRS value for the target flag. -/
theorem Ogr2ogr.srs_flags_pairing_witness :
    (pyTruthy ((Ogr2ogr.init.set_input (.raw "in.shp") none
        (some "EPSG:4326") none).set_output (.raw "out.shp") none none
        (some "EPSG:3857")).in_srs = true)
    ∧ ["-a_srs", "EPSG:4326", "-s_srs", "EPSG:4326"]
        <:+: (Ogr2ogr.execute (fun _ => false)
          ((Ogr2ogr.init.set_input (.raw "in.shp") none (some "EPSG:4326")
              none).set_output (.raw "out.shp") none none
              (some "EPSG:3857"))).2.1
    ∧ ["-t_srs", "EPSG:3857"]
        <:+: (Ogr2ogr.execute (fun _ => false)
          ((Ogr2ogr.init.set_input (.raw "in.shp") none (some "EPSG:4326")
              none).set_output (.raw "out.shp") none none
              (some "EPSG:3857"))).2.1 :=
  ⟨by decide,
   (Ogr2ogr.srs_flags_pairing (fun _ => false)
      ((Ogr2ogr.init.set_input (.raw "in.shp") none (some "EPSG:4326")
          none).set_output (.raw "out.shp") none none
          (some "EPSG:3857"))).1 (by decide),
   (Ogr2ogr.srs_flags_pairing (fun _ => false)
      ((Ogr2ogr.init.set_input (.raw "in.shp") none (some "EPSG:4326")
          none).set_output (.raw "out.shp") none none
          (some "EPSG:3857"))).2 (by decide)⟩

/-- C8: the geometry-type accessor returns the explicitly set override when
one is present (non-empty), the multi-geometry-promotion sentinel when no
override is present and the output format is PostgreSQL, and the stored
unset value otherwise. -/
theorem Ogr2ogr.geom_type_accessor_spec (o : Ogr2ogr) :
    (pyTruthy o.geom_type_field = true → o.geom_type = o.geom_type_field)
    ∧ (pyTruthy o.geom_type_field = false →
        o.out_file_type = "PostgreSQL" →
        o.geom_type = some "PROMOTE_TO_MULTI")
    ∧ (pyTruthy o.geom_type_field = false →
        o.out_file_type ≠ "PostgreSQL" →
        o.geom_type = o.geom_type_field) := by
  unfold Ogr2ogr.geom_type
  refine ⟨fun h => ?_, fun h h2 => ?_, fun h h2 => ?_⟩
  · simp [h]
  · simp [h, h2]
  · simp [h, h2]

/-- Witness for C8 at a concrete builder with a PostgreSQL output and no
override: the accessor returns the promotion sentinel. -/
theorem Ogr2ogr.geom_type_accessor_spec_witness :
    (pyTruthy (Ogr2ogr.init.set_output
        (.cs (.conn "PG: dbname=gis" "PG: dbname=gis")) none none
        none).geom_type_field = false)
    ∧ ((Ogr2ogr.init.set_output
        (.cs (.conn "PG: dbname=gis" "PG: dbname=gis")) none none
        none).out_file_type = "PostgreSQL")
    ∧ (Ogr2ogr.init.set_output
        (.cs (.conn "PG: dbname=gis" "PG: dbname=gis")) none none
        none).geom_type = some "PROMOTE_TO_MULTI" :=
  ⟨by decide, by decide,
   (Ogr2ogr.geom_type_accessor_spec
      (Ogr2ogr.init.set_output
        (.cs (.conn "PG: dbname=gis" "PG: dbname=gis")) none none
        none)).2.1 (by decide) (by decide)⟩

/-- C9: the execution list and the logging-safe list have the same length
and the same tokens everywhere except the two destination positionals, where
the execution list carries the encoded forms and the safe list the display
forms; the Process Runner receives the execution list. -/
theorem Ogr2ogr.safe_args_parallel {ρ : Type} (runner : List String → ρ)
    (fe : String → Bool) (o : Ogr2ogr) :
    Ogr2ogr.execRun runner fe o = runner (Ogr2ogr.execute fe o).2.1
    ∧ (Ogr2ogr.execute fe o).2.1.length = (Ogr2ogr.execute fe o).2.2.length
    ∧ ∃ pre post,
        (Ogr2ogr.execute fe o).2.1
          = pre ++ [o.out_ds.encode, o.in_ds.encode] ++ post
        ∧ (Ogr2ogr.execute fe o).2.2
          = pre ++ [o.out_ds.display, o.in_ds.display] ++ post := by
  refine ⟨rfl, ?_, ?_⟩
  · rw [execute_args_decomp fe o, execute_safe_decomp fe o]
    by_cases h : pyTruthy o.in_table = true <;>
      simp [specPositional, specPositionalSafe, h]
  · refine ⟨[o.command] ++ specDsModeFlag o ++ specLayerModeFlag o
        ++ specTargetSrs o ++ specInputSrs o ++ specFmt o ++ specDsco o
        ++ specLco o ++ specConfig o ++ specNln o ++ specNlt o,
      (if pyTruthy o.in_table then [o.in_table.getD ""] else []), ?_, ?_⟩
    · rw [execute_args_decomp fe o]
      simp [specPositional, List.append_assoc]
    · rw [execute_safe_decomp fe o]
      simp [specPositionalSafe, List.append_assoc]

/-- C10: `execute` mutates nothing — the builder state after `execute` is
the state before it, field by field, for every configuration and every
state of the filesystem. -/
theorem Ogr2ogr.execute_preserves_state (fe : String → Bool) (o : Ogr2ogr) :
    (Ogr2ogr.execute fe o).1 = o
    ∧ (Ogr2ogr.execute fe o).1.in_ds = o.in_ds
    ∧ (Ogr2ogr.execute fe o).1.in_table = o.in_table
    ∧ (Ogr2ogr.execute fe o).1.in_srs = o.in_srs
    ∧ (Ogr2ogr.execute fe o).1.in_encoding = o.in_encoding
    ∧ (Ogr2ogr.execute fe o).1.out_ds = o.out_ds
    ∧ (Ogr2ogr.execute fe o).1.out_file_type = o.out_file_type
    ∧ (Ogr2ogr.execute fe o).1.out_table = o.out_table
    ∧ (Ogr2ogr.execute fe o).1.out_srs = o.out_srs
    ∧ (Ogr2ogr.execute fe o).1.layer_mode = o.layer_mode
    ∧ (Ogr2ogr.execute fe o).1.data_source_mode = o.data_source_mode
    ∧ (Ogr2ogr.execute fe o).1.dataset_creation_options_user
        = o.dataset_creation_options_user
    ∧ (Ogr2ogr.execute fe o).1.dataset_creation_options_internal
        = o.dataset_creation_options_internal
    ∧ (Ogr2ogr.execute fe o).1.layer_creation_options_user
        = o.layer_creation_options_user
    ∧ (Ogr2ogr.execute fe o).1.layer_creation_options_internal
        = o.layer_creation_options_internal
    ∧ (Ogr2ogr.execute fe o).1.config_options_user = o.config_options_user
    ∧ (Ogr2ogr.execute fe o).1.config_options_internal
        = o.config_options_internal
    ∧ (Ogr2ogr.execute fe o).1.geom_type_field = o.geom_type_field := by
  have h1 : (Ogr2ogr.execute fe o).1 = o := by
    unfold Ogr2ogr.execute
    dsimp only
    by_cases h : pyTruthy o.in_table = true
    · rw [if_pos h]
    · rw [if_neg h]
  rw [h1]
  exact ⟨rfl, rfl, rfl, rfl, rfl, rfl, rfl, rfl, rfl, rfl, rfl, rfl, rfl,
    rfl, rfl, rfl, rfl, rfl⟩
